import Mathlib

/-!
Verification of the MutiexchangeBot position-lifecycle engine.

The Python sources (`position_manager.py`, `tp_sl_manager.py`,
`stop_loss_monitor.py`, `trading_executor.py`, `webhook_handler.py`) are
shallowly embedded below.  Python floats are modelled as rationals (`ℚ`),
dictionaries keyed by symbol as association lists, and in-place mutation as
explicit state passing.  Fallible calls (exchange client responses, the
downstream monitor notification) are modelled as explicit parameters or
`Except` results.
-/

namespace MutiexchangeBot

/-- Python `str.upper()` restricted to ASCII, as used on sides and signals.
(Embedded structurally over the character list, since `String.toUpper` is
defined by well-founded recursion and does not reduce in the kernel.) -/
def upper (s : String) : String := ⟨s.data.map Char.toUpper⟩

/-- The `tp_hit` dictionary of a position (`position_manager.create_position`). -/
structure TPHit where
  tp1 : Bool
  tp2 : Bool
  tp3 : Bool
  tp4 : Bool
  tp5 : Bool
deriving Repr, DecidableEq

/-- A position record, as built by `PositionManager.create_position`.
`stop_loss_price` is `none` until set (Python `None`); `tp_orders` maps a TP
level name to the exchange order id. -/
structure Position where
  symbol : String
  entry_price : ℚ
  side : String
  initial_quantity : ℚ
  remaining_quantity : ℚ
  entry_order_id : String
  stop_loss_order_id : Option String
  stop_loss_price : Option ℚ
  tp_orders : List (String × String)
  tp_hit : TPHit
  stop_loss_moved_to_entry : Bool
  created_at : ℕ
deriving Repr, DecidableEq

/-- `TPSLManager.TP_CONFIG`: per TP level, `(percent, close_percent)`. -/
def TP_CONFIG (tp_level : String) : Option (ℚ × ℚ) :=
  if tp_level = "tp1" then some (1, 10)
  else if tp_level = "tp2" then some (2, 15)
  else if tp_level = "tp3" then some (5, 35)
  else if tp_level = "tp4" then some (13/2, 35)
  else if tp_level = "tp5" then some (8, 50)
  else none

/-- `TPSLManager.calculate_tp_price`: `percent` defaults to 0 for an unknown
level (Python `dict.get` defaults). -/
def calculate_tp_price (entry_price : ℚ) (tp_level : String) (side : String) : ℚ :=
  let tp_percent := ((TP_CONFIG tp_level).map Prod.fst).getD 0
  if (upper side) = "BUY" then entry_price * (1 + tp_percent / 100)
  else entry_price * (1 - tp_percent / 100)

/-- `TPSLManager.calculate_sl_price`; `stop_loss_percent` is the manager's
configured percentage (default 5.0). -/
def calculate_sl_price (stop_loss_percent entry_price : ℚ) (side : String) : ℚ :=
  if (upper side) = "BUY" then entry_price * (1 - stop_loss_percent / 100)
  else entry_price * (1 + stop_loss_percent / 100)

/-- `TPSLManager.calculate_close_quantity`: TP5 closes half of the remaining
quantity; TP1–TP4 close a fixed percentage of the initial quantity. -/
def calculate_close_quantity (initial_quantity : ℚ) (tp_level : String)
    (remaining_quantity : ℚ) : ℚ :=
  if tp_level = "tp5" then
    remaining_quantity * (1/2)
  else
    let close_percent := ((TP_CONFIG tp_level).map Prod.snd).getD 0
    initial_quantity * (close_percent / 100)

/-- C2: rungs tp1–tp4 close 10%, 15%, 35%, 35% of the initial quantity,
independent of the remaining quantity, and tp5 closes half of the remaining
quantity; with initial quantity 100 the rung closes are 10, 15, 35, 35, and a
remainder of exactly 5 at tp5 closes 2.5. -/
theorem C2_close_quantity_law (q r : ℚ) :
    calculate_close_quantity q "tp1" r = q * (10/100) ∧
    calculate_close_quantity q "tp2" r = q * (15/100) ∧
    calculate_close_quantity q "tp3" r = q * (35/100) ∧
    calculate_close_quantity q "tp4" r = q * (35/100) ∧
    calculate_close_quantity q "tp5" r = r * (1/2) ∧
    calculate_close_quantity 100 "tp1" r = 10 ∧
    calculate_close_quantity 100 "tp2" r = 15 ∧
    calculate_close_quantity 100 "tp3" r = 35 ∧
    calculate_close_quantity 100 "tp4" r = 35 ∧
    calculate_close_quantity q "tp5" 5 = 5/2 := by
  refine ⟨?_, ?_, ?_, ?_, ?_, ?_, ?_, ?_, ?_, ?_⟩ <;>
    simp [calculate_close_quantity, TP_CONFIG] <;> norm_num

/-! ## Position store (`position_manager.py`)

`PositionManager.active_positions` is a Python dict keyed by symbol; it is
embedded as an association list with unique keys (dict insertion replaces the
entry for an existing key). -/

/-- The `active_positions` dict, symbol to position record. -/
abbrev PositionStore := List (String × Position)

/-- `PositionManager.get_position`: `self.active_positions.get(symbol)`. -/
def get_position : PositionStore → String → Option Position
  | [], _ => none
  | (s, p) :: rest, symbol => if s = symbol then some p else get_position rest symbol

/-- In-place mutation of the record stored under `symbol` (a no-op when the
symbol is absent, matching the Python `if symbol in self.active_positions`
guards). -/
def set_position : PositionStore → String → (Position → Position) → PositionStore
  | [], _, _ => []
  | (s, p) :: rest, symbol, f =>
    if s = symbol then (s, f p) :: rest else (s, p) :: set_position rest symbol f

/-- `self.active_positions[symbol] = position` (insert or replace). -/
def store_insert : PositionStore → String → Position → PositionStore
  | [], symbol, pos => [(symbol, pos)]
  | (s, p) :: rest, symbol, pos =>
    if s = symbol then (s, pos) :: rest else (s, p) :: store_insert rest symbol pos

/-- `PositionManager.close_position`: `del self.active_positions[symbol]`. -/
def close_position : PositionStore → String → PositionStore
  | [], _ => []
  | (s, p) :: rest, symbol => if s = symbol then rest else (s, p) :: close_position rest symbol

/-- `PositionManager.update_position_quantity`: subtracts the closed quantity
from `remaining_quantity` (the source performs a bare `-=`, with no clamping). -/
def update_position_quantity (store : PositionStore) (symbol : String)
    (closed_quantity : ℚ) : PositionStore :=
  set_position store symbol fun pos =>
    { pos with remaining_quantity := pos.remaining_quantity - closed_quantity }

/-- Update one field of the `tp_hit` dict. -/
def setTPHit (h : TPHit) (tp_level : String) (b : Bool) : TPHit :=
  if tp_level = "tp1" then { h with tp1 := b }
  else if tp_level = "tp2" then { h with tp2 := b }
  else if tp_level = "tp3" then { h with tp3 := b }
  else if tp_level = "tp4" then { h with tp4 := b }
  else if tp_level = "tp5" then { h with tp5 := b }
  else h

/-- `PositionManager.mark_tp_hit`. -/
def mark_tp_hit (store : PositionStore) (symbol tp_level : String) : PositionStore :=
  set_position store symbol fun pos => { pos with tp_hit := setTPHit pos.tp_hit tp_level true }

/-- `PositionManager.mark_stop_loss_moved`. -/
def mark_stop_loss_moved (store : PositionStore) (symbol : String) : PositionStore :=
  set_position store symbol fun pos => { pos with stop_loss_moved_to_entry := true }

/-- `StopLossMonitor.update_stop_loss_price`: writes the new stop-loss price
into the position record (when the symbol is present). -/
def update_stop_loss_price (store : PositionStore) (symbol : String)
    (new_sl_price : ℚ) : PositionStore :=
  set_position store symbol fun pos => { pos with stop_loss_price := some new_sl_price }

/-! ### Basic store lemmas -/

theorem get_set_position (store : PositionStore) (symbol : String)
    (f : Position → Position) :
    get_position (set_position store symbol f) symbol
      = (get_position store symbol).map f := by
  induction store with
  | nil => rfl
  | cons hd tl ih =>
    obtain ⟨s, p⟩ := hd
    by_cases h : s = symbol <;> simp [get_position, set_position, h, ih]

theorem set_position_eq_self (store : PositionStore) (symbol : String)
    (f : Position → Position)
    (h : ∀ p, get_position store symbol = some p → f p = p) :
    set_position store symbol f = store := by
  induction store with
  | nil => rfl
  | cons hd tl ih =>
    obtain ⟨s, p⟩ := hd
    by_cases hs : s = symbol
    · have hp : f p = p := h p (by simp [get_position, hs])
      simp [set_position, hs, hp]
    · have htl := ih fun q hq => h q (by simpa [get_position, hs] using hq)
      simp [set_position, hs, htl]

/-- A sample position record, as `PositionManager.create_position` builds it
for a fresh fill (no stop-loss set yet, no TP orders recorded). -/
def fresh_position (symbol : String) (entry_price : ℚ) (side : String)
    (quantity : ℚ) (order_id : String) : Position :=
  { symbol := symbol
    entry_price := entry_price
    side := (upper side)
    initial_quantity := quantity
    remaining_quantity := quantity
    entry_order_id := order_id
    stop_loss_order_id := none
    stop_loss_price := none
    tp_orders := []
    tp_hit := ⟨false, false, false, false, false⟩
    stop_loss_moved_to_entry := false
    created_at := 0 }

/-- `PositionManager.create_position` (the `created_at` timestamp is passed
explicitly instead of calling `time.time()`). -/
def create_position (store : PositionStore) (symbol : String) (entry_price : ℚ)
    (side : String) (quantity : ℚ) (order_id : String) : PositionStore :=
  store_insert store symbol (fresh_position symbol entry_price side quantity order_id)

/-! ## Claim C3: decrement clamping -/

/-- Concrete store for the C3 counterexample: one BUY position with
5 units remaining. -/
def c3_store : PositionStore :=
  [("BTCUSDT", { fresh_position "BTCUSDT" 100 "BUY" 100 "1" with remaining_quantity := 5 })]

/-- C3 counterexample: `update_position_quantity` does not clamp at 0.
Decrementing 10 from a position with 5 remaining leaves `-5`, which is
negative — refuting "clamps remainingQuantity at 0 and never lets it become
negative". -/
theorem C3_counterexample :
    (get_position (update_position_quantity c3_store "BTCUSDT" 10) "BTCUSDT").map
        Position.remaining_quantity = some (-5) ∧
    ¬ (0 : ℚ) ≤ -5 := by
  constructor
  · simp [c3_store, update_position_quantity, set_position, get_position, fresh_position]
    norm_num
  · norm_num

/-- C3 (amended): `DecrementRemaining` subtracts the closed quantity with no
clamping, so `remainingQuantity` stays non-negative only when the decrement
does not exceed the current remaining quantity; under that side condition
(`0 ≤ qty ≤ remaining`) the invariant `0 ≤ remainingQuantity` is preserved,
and the new remaining quantity is exactly the old one minus the decrement. -/
theorem C3_decrement_no_clamp (store : PositionStore) (symbol : String)
    (pos : Position) (qty : ℚ) (hget : get_position store symbol = some pos)
    (h0 : 0 ≤ qty) (hle : qty ≤ pos.remaining_quantity) :
    get_position (update_position_quantity store symbol qty) symbol
      = some { pos with remaining_quantity := pos.remaining_quantity - qty } ∧
    0 ≤ pos.remaining_quantity - qty := by
  refine ⟨?_, by linarith⟩
  rw [update_position_quantity, get_set_position, hget]
  rfl

/-- Witness for C3_decrement_no_clamp at the concrete C3 store with a
decrement of 3 ≤ 5. -/
theorem C3_decrement_no_clamp_witness :
    get_position (update_position_quantity c3_store "BTCUSDT" 3) "BTCUSDT"
      = some { fresh_position "BTCUSDT" 100 "BUY" 100 "1" with remaining_quantity := 5 - 3 } ∧
    (0 : ℚ) ≤ 5 - 3 := by
  have h := C3_decrement_no_clamp c3_store "BTCUSDT"
    { fresh_position "BTCUSDT" 100 "BUY" 100 "1" with remaining_quantity := 5 } 3
    (by simp [c3_store, get_position]) (by norm_num) (by norm_num)
  simpa using h

/-! ## Breakeven move and TP1 handling (`tp_sl_manager.py`)

`TPSLManager.move_stop_loss_to_entry` mutates the position record, marks the
move in the store, and then notifies the stop-loss monitor.  The downstream
monitor notification is the fallible step named by the spec; its failure is
injected through the `monitor_fault` flag.  The Python `except` clause
re-raises, so a failure is modelled as `Except.error` carrying the error
message together with the store as mutated before the raise. -/

/-- `TPSLManager.move_stop_loss_to_entry`.  Returns the new stop-loss marker id
(`'MONITORED'`, or `None` when the position is missing) with the updated store,
or raises (`.error`) when the downstream monitor notification fails. -/
def move_stop_loss_to_entry (monitor_fault : Bool) (store : PositionStore)
    (symbol : String) (entry_price : ℚ) (side : String)
    (current_sl_order_id : Option String) :
    Except (String × PositionStore) (Option String × PositionStore) :=
  match get_position store symbol with
  | none => .ok (none, store)
  | some _ =>
    let store1 := set_position store symbol fun pos =>
      { pos with stop_loss_price := some entry_price,
                 stop_loss_order_id := some "MONITORED" }
    let store2 := mark_stop_loss_moved store1 symbol
    if monitor_fault then
      .error ("CRITICAL: Cannot move stop-loss to entry - project requirement failed", store2)
    else
      .ok (some "MONITORED", update_stop_loss_price store2 symbol entry_price)

/-- `TPSLManager.check_and_handle_tp1`.  `tp1_status` is the status string the
exchange client returns for the recorded tp1 order.  On a `FILLED` status the
breakeven move runs first; only then is the rung marked hit and the remaining
quantity decremented.  A failure of the move propagates (`.error`), as the
Python `except` clause re-raises. -/
def check_and_handle_tp1 (tp1_status : String) (monitor_fault : Bool)
    (store : PositionStore) (symbol : String) :
    Except (String × PositionStore) (Bool × PositionStore) :=
  match get_position store symbol with
  | none => .ok (false, store)
  | some position =>
    if position.tp_hit.tp1 then .ok (true, store)
    else
      match position.tp_orders.find? (fun p => p.1 = "tp1") with
      | none => .ok (false, store)
      | some _ =>
        if tp1_status = "FILLED" then
          match move_stop_loss_to_entry monitor_fault store symbol
              position.entry_price position.side position.stop_loss_order_id with
          | .error e => .error e
          | .ok (new_sl_order_id, store1) =>
            match new_sl_order_id with
            | some oid =>
              let store2 := set_position store1 symbol fun pos =>
                { pos with stop_loss_order_id := some oid,
                           tp_hit := setTPHit pos.tp_hit "tp1" true }
              let store3 := mark_tp_hit store2 symbol "tp1"
              let tp1_close_qty := calculate_close_quantity
                position.initial_quantity "tp1" position.remaining_quantity
              .ok (true, update_position_quantity store3 symbol tp1_close_qty)
            | none =>
              .error ("CRITICAL: Failed to move stop-loss to entry after TP1", store1)
        else .ok (false, store)

/-! ## Claim C6: idempotence of the breakeven move -/

/-- C6: the breakeven move is idempotent.  When the position exists, the first
call succeeds and leaves `stopLossPrice = entryPrice` and
`stopLossMovedToEntry = true`; a second call immediately after succeeds again
(it is a no-op, not an error) and returns exactly the same store. -/
theorem C6_move_stop_loss_idempotent (store : PositionStore) (symbol : String)
    (pos : Position) (entry_price : ℚ) (side : String) (slid slid' : Option String)
    (hget : get_position store symbol = some pos) :
    ∃ store1,
      move_stop_loss_to_entry false store symbol entry_price side slid
        = .ok (some "MONITORED", store1) ∧
      move_stop_loss_to_entry false store1 symbol entry_price side slid'
        = .ok (some "MONITORED", store1) ∧
      (get_position store1 symbol).map
          (fun p => (p.stop_loss_price, p.stop_loss_moved_to_entry))
        = some (some entry_price, true) := by
  classical
  set f1 : Position → Position := fun pos =>
    { pos with stop_loss_price := some entry_price,
               stop_loss_order_id := some "MONITORED" } with hf1
  set f2 : Position → Position := fun pos =>
    { pos with stop_loss_moved_to_entry := true } with hf2
  set f3 : Position → Position := fun pos =>
    { pos with stop_loss_price := some entry_price } with hf3
  set store1 := update_stop_loss_price (mark_stop_loss_moved
    (set_position store symbol f1) symbol) symbol entry_price with hstore1
  have hget1 : get_position store1 symbol = some (f3 (f2 (f1 pos))) := by
    rw [hstore1, update_stop_loss_price, mark_stop_loss_moved,
      get_set_position, get_set_position, get_set_position, hget]
    rfl
  refine ⟨store1, ?_, ?_, ?_⟩
  · rw [move_stop_loss_to_entry, hget]
    rfl
  · have e1 : set_position store1 symbol f1 = store1 := by
      apply set_position_eq_self
      intro q hq
      rw [hget1] at hq
      injection hq with hq
      subst hq
      rfl
    have e2 : mark_stop_loss_moved store1 symbol = store1 := by
      rw [mark_stop_loss_moved]
      apply set_position_eq_self
      intro q hq
      rw [hget1] at hq
      injection hq with hq
      subst hq
      rfl
    have e3 : update_stop_loss_price store1 symbol entry_price = store1 := by
      rw [update_stop_loss_price]
      apply set_position_eq_self
      intro q hq
      rw [hget1] at hq
      injection hq with hq
      subst hq
      rfl
    rw [move_stop_loss_to_entry, hget1]
    simp only [e1, e2, e3]
    rfl
  · rw [hget1]
    rfl

/-- Witness for C6 at a concrete one-position store. -/
theorem C6_witness :
    ∃ store1,
      move_stop_loss_to_entry false c3_store "BTCUSDT" 100 "BUY" none
        = .ok (some "MONITORED", store1) ∧
      move_stop_loss_to_entry false store1 "BTCUSDT" 100 "BUY" (some "MONITORED")
        = .ok (some "MONITORED", store1) ∧
      (get_position store1 "BTCUSDT").map
          (fun p => (p.stop_loss_price, p.stop_loss_moved_to_entry))
        = some (some 100, true) :=
  C6_move_stop_loss_idempotent c3_store "BTCUSDT"
    { fresh_position "BTCUSDT" 100 "BUY" 100 "1" with remaining_quantity := 5 }
    100 "BUY" none (some "MONITORED") (by simp [c3_store, get_position])

/-! ## Claim C1: breakeven move on TP1 fill -/

/-- Concrete SELL position with a recorded tp1 order, for the C1 witness. -/
def c1_position : Position :=
  { fresh_position "ETHUSDT" 200 "SELL" 50 "7" with tp_orders := [("tp1", "42")] }

/-- Concrete one-position store for the C1 witness. -/
def c1_store : PositionStore := [("ETHUSDT", c1_position)]

/-- C1: when the reconciler observes tp1 `FILLED` (position present, rung 1 not
yet marked, tp1 order recorded), the step succeeds and afterwards
`stop_loss_moved_to_entry = true`, `stop_loss_price = entry_price`, rung 1 is
marked hit, and the remaining quantity is decremented by the tp1 close
quantity — for any side.  When the breakeven move fails, the failure
propagates as an error, and in the state at the raise rung 1 is still unmarked
and the quantity undecremented (the move runs before either), while the
stop-loss fields were already set to entry. -/
theorem C1_tp1_fill_moves_stop_loss (store : PositionStore) (symbol : String)
    (pos : Position) (o : String × String)
    (hget : get_position store symbol = some pos)
    (h1 : pos.tp_hit.tp1 = false)
    (h2 : pos.tp_orders.find? (fun p => p.1 = "tp1") = some o) :
    (∃ store' pos',
      check_and_handle_tp1 "FILLED" false store symbol = .ok (true, store') ∧
      get_position store' symbol = some pos' ∧
      pos'.stop_loss_moved_to_entry = true ∧
      pos'.stop_loss_price = some pos.entry_price ∧
      pos'.tp_hit.tp1 = true ∧
      pos'.remaining_quantity = pos.remaining_quantity
        - calculate_close_quantity pos.initial_quantity "tp1" pos.remaining_quantity) ∧
    (∃ msg store'' pos'',
      check_and_handle_tp1 "FILLED" true store symbol = .error (msg, store'') ∧
      get_position store'' symbol = some pos'' ∧
      pos''.tp_hit.tp1 = false ∧
      pos''.remaining_quantity = pos.remaining_quantity ∧
      pos''.stop_loss_moved_to_entry = true ∧
      pos''.stop_loss_price = some pos.entry_price) := by
  classical
  set fA : Position → Position := fun p =>
    { p with stop_loss_price := some pos.entry_price,
             stop_loss_order_id := some "MONITORED" } with hfA
  set fB : Position → Position := fun p =>
    { p with stop_loss_order_id := some "MONITORED",
             tp_hit := setTPHit p.tp_hit "tp1" true } with hfB
  set qty := calculate_close_quantity pos.initial_quantity "tp1"
    pos.remaining_quantity with hqty
  constructor
  · set s_ok := update_position_quantity (mark_tp_hit (set_position
      (update_stop_loss_price (mark_stop_loss_moved (set_position store symbol fA)
        symbol) symbol pos.entry_price) symbol fB) symbol "tp1") symbol qty with hsok
    have hrun : check_and_handle_tp1 "FILLED" false store symbol = .ok (true, s_ok) := by
      rw [check_and_handle_tp1, hget]
      simp only [h1, h2, move_stop_loss_to_entry, hget]
      rfl
    have hgetOk : get_position s_ok symbol
        = some { pos with stop_loss_price := some pos.entry_price,
                          stop_loss_order_id := some "MONITORED",
                          stop_loss_moved_to_entry := true,
                          tp_hit := setTPHit (setTPHit pos.tp_hit "tp1" true) "tp1" true,
                          remaining_quantity := pos.remaining_quantity - qty } := by
      rw [hsok, update_position_quantity, mark_tp_hit, update_stop_loss_price,
        mark_stop_loss_moved]
      simp only [get_set_position, hget, Option.map_some']
    refine ⟨s_ok, _, hrun, hgetOk, rfl, rfl, ?_, rfl⟩
    simp [setTPHit]
  · set s_err := mark_stop_loss_moved (set_position store symbol fA) symbol with hserr
    have hrun : check_and_handle_tp1 "FILLED" true store symbol
        = .error ("CRITICAL: Cannot move stop-loss to entry - project requirement failed",
            s_err) := by
      rw [check_and_handle_tp1, hget]
      simp only [h1, h2, move_stop_loss_to_entry, hget]
      rfl
    have hgetErr : get_position s_err symbol
        = some { pos with stop_loss_price := some pos.entry_price,
                          stop_loss_order_id := some "MONITORED",
                          stop_loss_moved_to_entry := true } := by
      rw [hserr, mark_stop_loss_moved]
      simp only [get_set_position, hget, Option.map_some']
    exact ⟨_, s_err, _, hrun, hgetErr, h1, rfl, rfl, rfl⟩

/-- Witness for C1 at a concrete one-position store holding a SELL (short)
position with a recorded tp1 order. -/
theorem C1_witness :
    (∃ store' pos',
      check_and_handle_tp1 "FILLED" false c1_store "ETHUSDT" = .ok (true, store') ∧
      get_position store' "ETHUSDT" = some pos' ∧
      pos'.stop_loss_moved_to_entry = true ∧
      pos'.stop_loss_price = some 200 ∧
      pos'.tp_hit.tp1 = true ∧
      pos'.remaining_quantity = 50
        - calculate_close_quantity 50 "tp1" 50) ∧
    (∃ msg store'' pos'',
      check_and_handle_tp1 "FILLED" true c1_store "ETHUSDT" = .error (msg, store'') ∧
      get_position store'' "ETHUSDT" = some pos'' ∧
      pos''.tp_hit.tp1 = false ∧
      pos''.remaining_quantity = 50 ∧
      pos''.stop_loss_moved_to_entry = true ∧
      pos''.stop_loss_price = some 200) :=
  C1_tp1_fill_moves_stop_loss c1_store "ETHUSDT" c1_position ("tp1", "42")
    (by simp [c1_store, get_position]) (by simp [c1_position, fresh_position])
    (by simp [c1_position, fresh_position, List.find?])

/-! ## Stop-loss monitor (`stop_loss_monitor.py`) -/

/-- The default stop-loss used inside `StopLossMonitor._check_stop_loss` when
no stop-loss price is stored: hardcoded 5% adverse from entry. -/
def monitor_default_sl_price (position : Position) : ℚ :=
  if (upper position.side) = "BUY" then position.entry_price * (1 - 5/100)
  else position.entry_price * (1 + 5/100)

/-- The effective stop-loss price: the stored `stop_loss_price` when truthy
(Python `if position.get('stop_loss_price'):` — `None` and `0.0` are falsy),
else the 5% default. -/
def effective_sl_price (position : Position) : ℚ :=
  match position.stop_loss_price with
  | some p => if p = 0 then monitor_default_sl_price position else p
  | none => monitor_default_sl_price position

/-- The `should_trigger` decision of `StopLossMonitor._check_stop_loss`:
LONG triggers at price ≤ stop-loss, anything else (short) at price ≥. -/
def should_trigger_stop_loss (position : Position) (current_price : ℚ) : Bool :=
  let sl_price := effective_sl_price position
  if (upper position.side) = "BUY" then decide (current_price ≤ sl_price)
  else decide (current_price ≥ sl_price)

/-- `_check_stop_loss` invokes `_execute_stop_loss` exactly when the trigger
decision fires and the remaining quantity is positive. -/
def check_stop_loss_fires (position : Position) (current_price : ℚ) : Bool :=
  should_trigger_stop_loss position current_price
    && decide (0 < position.remaining_quantity)

/-- A market order as placed by the monitor and executor: a sell is sized in
base quantity, a buy in quote notional (`place_market_buy` takes the quote
amount). -/
inductive MarketOrder where
  | sell (symbol : String) (quantity : ℚ)
  | buy (symbol : String) (quote_notional : ℚ)
deriving Repr, DecidableEq

/-- The liquidation order `_execute_stop_loss` sends: LONG closes with a
market sell of the remaining quantity, short with a market buy of notional
`remaining_quantity × current_price`. -/
def stop_loss_order (position : Position) (current_price : ℚ) : MarketOrder :=
  if (upper position.side) = "BUY" then .sell position.symbol position.remaining_quantity
  else .buy position.symbol (position.remaining_quantity * current_price)

/-- `StopLossMonitor._execute_stop_loss`.  `order_result` is `some orderId`
when the exchange response carries an `orderId`, and `none` when the order
failed or the call raised (both paths only log).  Returns the order that was
sent (if any) and the updated store: the position is removed only on a
successful order. -/
def execute_stop_loss (order_result : Option String) (store : PositionStore)
    (symbol : String) (position : Position) (current_price : ℚ) :
    Option MarketOrder × PositionStore :=
  if position.remaining_quantity ≤ 0 then (none, store)
  else
    match order_result with
    | some _ => (some (stop_loss_order position current_price), close_position store symbol)
    | none => (some (stop_loss_order position current_price), store)

/-! ## Claim C4: stop-loss trigger law -/

/-- Concrete LONG position: entry 100, no stored stop-loss price, 1 unit
remaining (so the default 5% stop applies and the quantity gate passes). -/
def c4_position : Position := fresh_position "BTCUSDT" 100 "BUY" 1 "9"

/-- C4: with positive remaining quantity, a LONG position's forced liquidation
fires exactly when price ≤ effective stop-loss, a SHORT's exactly when
price ≥ it; for entry 100 with the default 5% stop the stop price is 95, a
tick of 94.99 fires and 95.01 does not. -/
theorem C4_stop_loss_trigger_law (position : Position) (current_price : ℚ)
    (hq : 0 < position.remaining_quantity) :
    ((upper position.side) = "BUY" →
      (check_stop_loss_fires position current_price = true ↔
        current_price ≤ effective_sl_price position)) ∧
    ((upper position.side) = "SELL" →
      (check_stop_loss_fires position current_price = true ↔
        effective_sl_price position ≤ current_price)) ∧
    effective_sl_price c4_position = 95 ∧
    check_stop_loss_fires c4_position (9499/100) = true ∧
    check_stop_loss_fires c4_position (9501/100) = false := by
  refine ⟨?_, ?_, ?_, ?_, ?_⟩
  · intro hside
    simp [check_stop_loss_fires, should_trigger_stop_loss, hside, hq]
  · intro hside
    have : (upper position.side) ≠ "BUY" := by
      rw [hside]; decide
    simp [check_stop_loss_fires, should_trigger_stop_loss, this, hq, ge_iff_le]
  · have : (upper "BUY") = "BUY" := by decide
    simp [c4_position, effective_sl_price, monitor_default_sl_price,
      fresh_position, this]
    norm_num
  · have : (upper "BUY") = "BUY" := by decide
    simp [check_stop_loss_fires, should_trigger_stop_loss, effective_sl_price,
      monitor_default_sl_price, c4_position, fresh_position, this]
    norm_num
  · have : (upper "BUY") = "BUY" := by decide
    simp [check_stop_loss_fires, should_trigger_stop_loss, effective_sl_price,
      monitor_default_sl_price, c4_position, fresh_position, this]
    norm_num

/-- Witness for C4 at the concrete LONG position and a price of 94.99. -/
theorem C4_witness :
    ((upper c4_position.side) = "BUY" →
      (check_stop_loss_fires c4_position (9499/100) = true ↔
        (9499/100 : ℚ) ≤ effective_sl_price c4_position)) ∧
    effective_sl_price c4_position = 95 ∧
    check_stop_loss_fires c4_position (9499/100) = true := by
  have h := C4_stop_loss_trigger_law c4_position (9499/100)
    (by norm_num [c4_position, fresh_position])
  exact ⟨h.1, h.2.2.1, h.2.2.2.1⟩

/-! ## Claim C5: forced liquidation semantics -/

/-- C5: with positive remaining quantity, the liquidation order is a market
sell of the entire remaining quantity for a LONG, and a market buy of notional
`remaining × price` for a SHORT; the position is removed from the store only
when the order succeeds, and on failure the store is left unchanged for retry. -/
theorem C5_execute_stop_loss (store : PositionStore) (symbol : String)
    (position : Position) (current_price : ℚ) (order_result : Option String)
    (hq : 0 < position.remaining_quantity) :
    ((upper position.side) = "BUY" →
      (execute_stop_loss order_result store symbol position current_price).1
        = some (.sell position.symbol position.remaining_quantity)) ∧
    ((upper position.side) = "SELL" →
      (execute_stop_loss order_result store symbol position current_price).1
        = some (.buy position.symbol (position.remaining_quantity * current_price))) ∧
    (∀ oid, order_result = some oid →
      (execute_stop_loss order_result store symbol position current_price).2
        = close_position store symbol) ∧
    (order_result = none →
      (execute_stop_loss order_result store symbol position current_price).2
        = store) := by
  have hq' : ¬ position.remaining_quantity ≤ 0 := not_le.mpr hq
  refine ⟨?_, ?_, ?_, ?_⟩
  · intro hside
    cases order_result <;> simp [execute_stop_loss, stop_loss_order, hq', hside]
  · intro hside
    have hne : (upper position.side) ≠ "BUY" := by
      rw [hside]; decide
    cases order_result <;> simp [execute_stop_loss, stop_loss_order, hq', hne]
  · intro oid hres
    subst hres
    simp [execute_stop_loss, hq']
  · intro hres
    subst hres
    simp [execute_stop_loss, hq']

/-- Witness for C5: LONG position with 1 unit remaining, successful and failed
liquidation orders. -/
theorem C5_witness :
    (execute_stop_loss (some "77") c3_store "BTCUSDT" c4_position 94).1
      = some (.sell "BTCUSDT" 1) ∧
    (execute_stop_loss (some "77") c3_store "BTCUSDT" c4_position 94).2
      = close_position c3_store "BTCUSDT" ∧
    (execute_stop_loss none c3_store "BTCUSDT" c4_position 94).2 = c3_store := by
  have h1 := C5_execute_stop_loss c3_store "BTCUSDT" c4_position 94 (some "77")
    (by norm_num [c4_position, fresh_position])
  have h2 := C5_execute_stop_loss c3_store "BTCUSDT" c4_position 94 none
    (by norm_num [c4_position, fresh_position])
  refine ⟨?_, h1.2.2.1 "77" rfl, h2.2.2.2 rfl⟩
  have := h1.1 (by decide)
  simpa [c4_position, fresh_position] using this

/-! ## Execution orchestrator sizing (`trading_executor.py`) -/

/-- `TradingExecutor.__init__`: `max(20.0, min(100.0, position_size))`. -/
def position_size_percent (configured : ℚ) : ℚ :=
  max 20 (min 100 configured)

/-- The order-placement gate of `TradingExecutor.execute_buy`: a computed size
`≤ 0` returns `None` before `place_market_buy` is called; otherwise a market
buy for the quote notional is placed. -/
def execute_buy_order (position_size_usdt : ℚ) (symbol : String) : Option MarketOrder :=
  if position_size_usdt ≤ 0 then none
  else some (.buy symbol position_size_usdt)

/-- C8: the configured position-size percentage is clamped to [20, 100] —
values below 20 become 20, above 100 become 100, in-range values are kept —
and a computed order size that is zero or negative makes the buy path return
without placing any order. -/
theorem C8_position_size_clamp (x : ℚ) (symbol : String) :
    20 ≤ position_size_percent x ∧
    position_size_percent x ≤ 100 ∧
    (x < 20 → position_size_percent x = 20) ∧
    (100 < x → position_size_percent x = 100) ∧
    (20 ≤ x → x ≤ 100 → position_size_percent x = x) ∧
    (∀ q : ℚ, q ≤ 0 → execute_buy_order q symbol = none) := by
  refine ⟨le_max_left _ _, ?_, ?_, ?_, ?_, ?_⟩
  · rw [position_size_percent]
    rw [max_le_iff]
    exact ⟨by norm_num, min_le_left _ _⟩
  · intro h
    rw [position_size_percent, min_eq_right (by linarith), max_eq_left (by linarith)]
  · intro h
    rw [position_size_percent, min_eq_left (by linarith), max_eq_right (by norm_num)]
  · intro h1 h2
    rw [position_size_percent, min_eq_right h2, max_eq_right h1]
  · intro q hq
    simp [execute_buy_order, hq]

/-- Witness for C8 at configured sizes 10, 150 and 50, and a computed order
size of 0. -/
theorem C8_witness :
    position_size_percent 10 = 20 ∧
    position_size_percent 150 = 100 ∧
    position_size_percent 50 = 50 ∧
    execute_buy_order 0 "BTCUSDT" = none :=
  ⟨(C8_position_size_clamp 10 "BTCUSDT").2.2.1 (by norm_num),
   (C8_position_size_clamp 150 "BTCUSDT").2.2.2.1 (by norm_num),
   (C8_position_size_clamp 50 "BTCUSDT").2.2.2.2.1 (by norm_num) (by norm_num),
   (C8_position_size_clamp 0 "BTCUSDT").2.2.2.2.2 0 le_rfl⟩

/-! ## Claim C10: the tp5 limit order quantity at ladder placement -/

/-- The tp5 branch of `TPSLManager.place_take_profit_orders`: the order
quantity is `initial_quantity * 0.05 * 0.5`, assuming rungs 1–4 will leave
exactly 5% of the initial quantity. -/
def place_tp5_order_quantity (initial_quantity : ℚ) : ℚ :=
  let remaining_after_tp4 := initial_quantity * (5/100)
  remaining_after_tp4 * (1/2)

/-- C10: the tp5 limit order placed at ladder time is sized at exactly 2.5% of
the initial quantity, and it coincides with what `calculate_close_quantity`
would give for the true remainder exactly when that remainder is 5% of the
initial quantity. -/
theorem C10_tp5_order_quantity (q r : ℚ) :
    place_tp5_order_quantity q = q * (25/1000) ∧
    (place_tp5_order_quantity q = calculate_close_quantity q "tp5" r ↔
      r = q * (5/100)) := by
  constructor
  · rw [place_tp5_order_quantity]
    ring
  · have hc : calculate_close_quantity q "tp5" r = r * (1/2) := by
      simp [calculate_close_quantity]
    rw [place_tp5_order_quantity, hc]
    constructor <;> intro h <;> linarith

/-! ## Signal normalization and validation (`webhook_handler.py`,
`trading_executor.py`) -/

/-- The `strategy` sub-dict of a payload; `all_conditions_met` is `none` when
the key is absent from the dict. -/
structure StrategyData where
  all_conditions_met : Option Bool
deriving Repr, DecidableEq

/-- A webhook payload as inspected by `_parse_signal_data` and
`validate_signal`.  `indicators` and `price` record key presence only — their
values are never read on the validation path. -/
structure SignalData where
  symbol : Option String
  signal : Option String
  indicators : Bool
  price : Bool
  strategy : Option StrategyData
deriving Repr, DecidableEq

/-- The crypto ticker list of `_parse_signal_data`. -/
def crypto_tickers : List String :=
  ["BTC", "ETH", "SOL", "ADA", "DOT", "MATIC", "AVAX", "LINK", "UNI", "ATOM",
   "BNB", "XRP", "DOGE", "LTC"]

/-- The crypto-symbol reformatting of `_parse_signal_data` (`BTCUSD` becomes
`BTC/USD` when the cleaned ticker is recognised). -/
def convert_symbol (symbol : String) : String :=
  if ¬ symbol.contains '/' then
    let clean_symbol := ((symbol.replace "USDT" "").replace "USD" "").replace "USDC" ""
    if crypto_tickers.contains (upper clean_symbol) then upper clean_symbol ++ "/USD"
    else symbol
  else symbol

/-- The structured branch of `WebhookHandler._parse_signal_data` (taken when
both `symbol` and `signal` keys are present): fills in missing `indicators`,
`price` and `strategy` keys — an entirely absent `strategy` defaults to
`{'all_conditions_met': True}` — and reformats recognised crypto symbols.
The pipe-delimited fallback branch is not modelled (`none`). -/
def parse_signal_data (data : SignalData) : Option SignalData :=
  if data.symbol.isSome ∧ data.signal.isSome then
    some { data with
      symbol := data.symbol.map convert_symbol
      indicators := true
      price := true
      strategy := match data.strategy with
        | some st => some st
        | none => some ⟨some true⟩ }
  else none

/-- `TradingExecutor.validate_signal`: requires the `symbol`, `signal`,
`indicators` and `price` keys, a case-insensitive `BUY`/`SELL` signal, and
`strategy.get('all_conditions_met', False)` to be true (Python defaults to
`False` at this layer when the key or the dict is missing). -/
def validate_signal (signal_data : SignalData) : Bool :=
  if ¬ (signal_data.symbol.isSome ∧ signal_data.signal.isSome ∧
        signal_data.indicators ∧ signal_data.price) then false
  else
    let signal := upper (signal_data.signal.getD "")
    if ¬ (signal = "BUY" ∨ signal = "SELL") then false
    else
      match signal_data.strategy with
      | some st => st.all_conditions_met.getD false
      | none => false

/-- The outcome of `TradingExecutor.execute_signal`: rejection (`None`), or
dispatch to the buy or sell path. -/
inductive ExecutionOutcome where
  | rejected
  | buy (symbol : String)
  | sell (symbol : String)
deriving Repr, DecidableEq

/-- `TradingExecutor.execute_signal`: validation failure returns before any
order path runs; otherwise the signal dispatches to `execute_buy` or
`execute_sell`. -/
def execute_signal (signal_data : SignalData) : ExecutionOutcome :=
  if ¬ validate_signal signal_data then .rejected
  else
    let signal := upper (signal_data.signal.getD "")
    if signal = "BUY" then .buy (signal_data.symbol.getD "")
    else if signal = "SELL" then .sell (signal_data.symbol.getD "")
    else .rejected

/-- The webhook pipeline: parse, then validate and dispatch (an unparsable
payload is answered with an error and no trade). -/
def process_signal (data : SignalData) : ExecutionOutcome :=
  match parse_signal_data data with
  | none => .rejected
  | some sd => execute_signal sd

/-- C7: for a structured payload carrying `symbol` and `signal`, a payload
entirely lacking the `strategy`/`all_conditions_met` field is given the
default `true` and is accepted (a trade path is taken) exactly when the signal
is case-insensitively `BUY` or `SELL`, and rejected otherwise; an explicit
`all_conditions_met = false` is rejected before any order path runs. -/
theorem C7_signal_validation (d : SignalData)
    (hs : d.symbol.isSome = true) (hg : d.signal.isSome = true) :
    (d.strategy = none →
      (process_signal d ≠ .rejected ↔
        (upper (d.signal.getD "") = "BUY" ∨ upper (d.signal.getD "") = "SELL"))) ∧
    (∀ st, d.strategy = some st → st.all_conditions_met = some false →
      process_signal d = .rejected) := by
  classical
  obtain ⟨sym, hsym⟩ := Option.isSome_iff_exists.mp hs
  obtain ⟨sig, hsig⟩ := Option.isSome_iff_exists.mp hg
  constructor
  · intro hstrat
    have hparse : parse_signal_data d
        = some { d with symbol := d.symbol.map convert_symbol,
                        indicators := true, price := true,
                        strategy := some ⟨some true⟩ } := by
      rw [parse_signal_data, if_pos ⟨hs, hg⟩, hstrat]
    have hgd : d.signal.getD "" = sig := by rw [hsig]; rfl
    by_cases hbuy : upper sig = "BUY"
    · simp [process_signal, hparse, execute_signal, validate_signal, hsym, hsig,
        hgd, hbuy]
    · by_cases hsell : upper sig = "SELL"
      · simp [process_signal, hparse, execute_signal, validate_signal, hsym, hsig,
          hgd, hbuy, hsell]
      · simp [process_signal, hparse, execute_signal, validate_signal, hsym, hsig,
          hgd, hbuy, hsell]
  · intro st hstrat hfalse
    have hparse : parse_signal_data d
        = some { d with symbol := d.symbol.map convert_symbol,
                        indicators := true, price := true,
                        strategy := some st } := by
      rw [parse_signal_data, if_pos ⟨hs, hg⟩, hstrat]
    simp [process_signal, hparse, execute_signal, validate_signal, hfalse]

/-- Witness for C7: a payload with lowercase `buy` and no strategy dict is
accepted as a buy; the same payload with an explicit
`all_conditions_met = false` is rejected. -/
theorem C7_witness :
    (process_signal ⟨some "BTCUSDT", some "buy", false, false, none⟩ ≠ .rejected ↔
      (upper "buy" = "BUY" ∨ upper "buy" = "SELL")) ∧
    process_signal ⟨some "BTCUSDT", some "buy", false, false, some ⟨some false⟩⟩
      = .rejected := by
  constructor
  · exact (C7_signal_validation ⟨some "BTCUSDT", some "buy", false, false, none⟩
      rfl rfl).1 rfl
  · exact (C7_signal_validation ⟨some "BTCUSDT", some "buy", false, false,
      some ⟨some false⟩⟩ rfl rfl).2 ⟨some false⟩ rfl rfl

/-! ## Claim C9: `get_all_positions` snapshot semantics

`PositionManager.get_all_positions` returns `self.active_positions.copy()` —
a *shallow* dict copy.  To express Python reference semantics the store is
refined here with two explicit heaps: position record objects live on `heap`,
and dict objects (mappings from symbol to record reference) live on `dicts`.
The manager itself holds a *reference* to its own dict object, so that
`dict.copy()` — the allocation of a fresh dict object carrying the same
record references — is distinguishable from returning the manager's dict
reference itself. -/

/-- The position manager's state under reference semantics: `heap` holds the
position record objects, `dicts` holds the dict objects (each a mapping from
symbol to record reference), and `active_positions` is the manager's
reference to its own dict object. -/
structure PMHeapState where
  heap : List Position
  dicts : List (List (String × Nat))
  active_positions : Nat
deriving Repr, DecidableEq

/-- `PositionManager.get_all_positions` under reference semantics:
`self.active_positions.copy()` allocates a *fresh* dict object holding the
same entries (the same record references) and returns its reference together
with the state extended by the new object. -/
def get_all_positions (s : PMHeapState) : Nat × PMHeapState :=
  (s.dicts.length,
   { s with dicts := s.dicts ++ [(s.dicts[s.active_positions]?).getD []] })

/-- Association-list lookup inside a dict object (`d[symbol]`). -/
def lookup_ref : List (String × Nat) → String → Option Nat
  | [], _ => none
  | (k, r) :: rest, symbol => if k = symbol then some r else lookup_ref rest symbol

/-- Dereference a position record reference. -/
def deref (s : PMHeapState) (r : Nat) : Option Position := s.heap[r]?

/-- `PositionManager.get_position` under reference semantics: read the
manager's own dict object, look the symbol up, dereference the record. -/
def get_position_heap (s : PMHeapState) (symbol : String) : Option Position :=
  match lookup_ref ((s.dicts[s.active_positions]?).getD []) symbol with
  | some r => deref s r
  | none => none

/-- Mutating the record object behind a reference (e.g.
`position['stop_loss_price'] = x` performed on a record obtained from a
snapshot). -/
def heap_modify (s : PMHeapState) (r : Nat) (f : Position → Position) : PMHeapState :=
  match s.heap[r]? with
  | some p => { s with heap := s.heap.set r (f p) }
  | none => s

/-- Mutating the dict object behind a reference (e.g. `del snapshot[k]` or
`snapshot[k] = v` performed on the mapping a caller got back). -/
def dict_modify (s : PMHeapState) (d : Nat)
    (f : List (String × Nat) → List (String × Nat)) : PMHeapState :=
  match s.dicts[d]? with
  | some m => { s with dicts := s.dicts.set d (f m) }
  | none => s

/-- Concrete one-position state for the C9 counterexample: one record on the
heap, one dict object mapping the symbol to it, owned by the manager. -/
def c9_state : PMHeapState :=
  { heap := [fresh_position "BTCUSDT" 100 "BUY" 100 "1"]
    dicts := [[("BTCUSDT", 0)]]
    active_positions := 0 }

/-- C9 counterexample: taking the snapshot of `c9_state` hands out a dict
object that resolves the symbol to record reference `0`; writing a stop-loss
price through that snapshot-obtained reference changes what the store itself
returns for the symbol — refuting "mutating the position records obtained
from the snapshot does not alter the positions held in the store". -/
theorem C9_counterexample :
    lookup_ref ((((get_all_positions c9_state).2.dicts[(get_all_positions
        c9_state).1]?)).getD []) "BTCUSDT" = some 0 ∧
    get_position_heap (heap_modify (get_all_positions c9_state).2 0
        (fun p => { p with stop_loss_price := some 999 })) "BTCUSDT"
      ≠ get_position_heap (get_all_positions c9_state).2 "BTCUSDT" := by
  constructor
  · rfl
  · intro h
    have := congrArg (fun o => (o.map Position.stop_loss_price).getD none) h
    simp [get_position_heap, heap_modify, deref, c9_state, lookup_ref,
      get_all_positions, fresh_position, List.set] at this

/-- Overwrite the record object at heap reference `r` (the already-resolved
form of `heap_modify`). -/
def with_heap_write (s : PMHeapState) (r : Nat) (p : Position) : PMHeapState :=
  { s with heap := s.heap.set r p }

/-- Store lookups agree between two states with the same record heap whose
managers' dict references resolve to the same mapping. -/
theorem get_position_heap_congr (s s' : PMHeapState) (symbol : String)
    (hheap : s'.heap = s.heap)
    (hdict : s'.dicts[s'.active_positions]? = s.dicts[s.active_positions]?) :
    get_position_heap s' symbol = get_position_heap s symbol := by
  rw [get_position_heap, get_position_heap, hdict]
  cases lookup_ref ((s.dicts[s.active_positions]?).getD []) symbol with
  | none => rfl
  | some r =>
    show deref s' r = deref s r
    rw [deref, deref, hheap]

/-- C9 (amended): the snapshot is a shallow copy.  Taking it allocates a
fresh dict object (a reference distinct from the manager's own) whose entries
equal the store's mapping at that point in time; mutating the returned
mapping in any way leaves the store's own lookups exactly as they were; but
the record references are shared, so mutating a record obtained through the
snapshot makes the store's own lookup return the mutated record. -/
theorem C9_snapshot_shallow_copy (s : PMHeapState) (symbol : String)
    (hd : s.active_positions < s.dicts.length) :
    (get_all_positions s).1 ≠ s.active_positions ∧
    (get_all_positions s).2.dicts[(get_all_positions s).1]?
      = s.dicts[s.active_positions]? ∧
    (∀ f : List (String × Nat) → List (String × Nat),
      get_position_heap
          (dict_modify (get_all_positions s).2 (get_all_positions s).1 f) symbol
        = get_position_heap s symbol) ∧
    (∀ (r : Nat) (pos : Position) (g : Position → Position),
      lookup_ref (((get_all_positions s).2.dicts[(get_all_positions s).1]?).getD [])
          symbol = some r →
      (get_all_positions s).2.heap[r]? = some pos →
      get_position_heap (heap_modify (get_all_positions s).2 r g) symbol
        = some (g pos)) := by
  obtain ⟨m, hm⟩ : ∃ m, s.dicts[s.active_positions]? = some m :=
    ⟨_, List.getElem?_eq_getElem hd⟩
  have hD : (s.dicts[s.active_positions]?).getD [] = m := by
    rw [hm]
    rfl
  have hne' : s.dicts.length ≠ s.active_positions := (ne_of_lt hd).symm
  have hsnapget : (get_all_positions s).2.dicts[(get_all_positions s).1]?
      = some m := by
    show (s.dicts ++ [(s.dicts[s.active_positions]?).getD []])[s.dicts.length]?
      = some m
    rw [List.getElem?_concat_length, hD]
  refine ⟨hne', by rw [hsnapget, hm], ?_, ?_⟩
  · intro f
    have hmod : dict_modify (get_all_positions s).2 (get_all_positions s).1 f
        = { s with dicts := (s.dicts ++
            [(s.dicts[s.active_positions]?).getD []]).set s.dicts.length (f m) } := by
      rw [dict_modify, hsnapget]
      rfl
    rw [hmod]
    apply get_position_heap_congr
    · rfl
    · show ((s.dicts ++ [(s.dicts[s.active_positions]?).getD []]).set
        s.dicts.length (f m))[s.active_positions]? = s.dicts[s.active_positions]?
      simp [List.getElem?_set, hne', List.getElem?_append, hd]
  · intro r pos g hlook hheap
    have hheap' : s.heap[r]? = some pos := hheap
    have hr : r < s.heap.length := by
      by_contra hge
      rw [List.getElem?_eq_none (le_of_not_lt hge)] at hheap'
      exact Option.noConfusion hheap'
    have hlookm : lookup_ref m symbol = some r := by
      rw [hsnapget] at hlook
      simpa using hlook
    have hmod : heap_modify (get_all_positions s).2 r g
        = with_heap_write (get_all_positions s).2 r (g pos) := by
      rw [heap_modify, hheap]
      rfl
    have hd2 : (with_heap_write (get_all_positions s).2 r
          (g pos)).dicts[(with_heap_write (get_all_positions s).2 r
          (g pos)).active_positions]? = some m := by
      show (s.dicts ++
        [(s.dicts[s.active_positions]?).getD []])[s.active_positions]? = some m
      simp [List.getElem?_append, hd, hm]
    rw [hmod, get_position_heap, hd2, Option.getD_some, hlookm]
    show deref (with_heap_write (get_all_positions s).2 r (g pos)) r = some (g pos)
    rw [deref]
    show (s.heap.set r (g pos))[r]? = some (g pos)
    simp [List.getElem?_set, hr]

/-- Witness for C9_snapshot_shallow_copy at the concrete state: the snapshot
reference is fresh, clearing the snapshot mapping leaves the store's lookup
intact, and marking the breakeven flag through the snapshot-obtained record
reference is visible in the store. -/
theorem C9_snapshot_shallow_copy_witness :
    (get_all_positions c9_state).1 ≠ c9_state.active_positions ∧
    get_position_heap (dict_modify (get_all_positions c9_state).2
        (get_all_positions c9_state).1 (fun _ => [])) "BTCUSDT"
      = get_position_heap c9_state "BTCUSDT" ∧
    get_position_heap (heap_modify (get_all_positions c9_state).2 0
        (fun p => { p with stop_loss_moved_to_entry := true })) "BTCUSDT"
      = some { fresh_position "BTCUSDT" 100 "BUY" 100 "1" with
                stop_loss_moved_to_entry := true } := by
  have h := C9_snapshot_shallow_copy c9_state "BTCUSDT" (by decide)
  exact ⟨h.1, h.2.2.1 (fun _ => []),
    h.2.2.2 0 (fresh_position "BTCUSDT" 100 "BUY" 100 "1")
      (fun p => { p with stop_loss_moved_to_entry := true }) rfl rfl⟩

end MutiexchangeBot
